import Mathlib

/-!
Shallow embedding of the kappa deployment orchestrator
(src/kappa/context.py, src/kappa/function.py, src/kappa/role.py).

Remote AWS calls are modelled by a `World` oracle that fixes each call's
outcome.  Operations return the list of mutating remote `Step`s they attempt
(read-only calls are not recorded as steps) together with an
`Except PyError` value mirroring Python exception propagation: `.error`
means the Python method raises.  Code of the repository that is not under
src/ (kappa.policy, kappa.event_source, kappa.log) is modelled from the
spec where noted on the definition.
-/

namespace Kappa

/-- Python exceptions distinguished by this embedding. -/
inductive PyError where
  | attributeError
  | keyError (k : String)
  | typeError
  | valueError (msg : String)
deriving DecidableEq

/-- Accumulator loop of decimal parsing: all characters must be digits. -/
def parseDigitsAux : List Char → Nat → Option Nat
  | [], acc => some acc
  | c :: cs, acc =>
    if c.isDigit then parseDigitsAux cs (acc * 10 + (c.toNat - 48))
    else none

/-- Python int() on a decimal string (optional leading minus sign); `none`
when int() would raise ValueError. -/
def pyInt (s : String) : Option Int :=
  match s.data with
  | [] => none
  | c :: cs =>
    if c = Char.ofNat 45 then
      match cs with
      | [] => none
      | _ => (parseDigitsAux cs 0).map (fun n => -(n : Int))
    else (parseDigitsAux (c :: cs) 0).map (fun n => (n : Int))

/-- os.getenv with a default, then int(); `none` when int() would reject the
string (which in the source would abort the import of function.py). -/
def pyGetenvInt (env : String → Option String) (key dflt : String) : Option Int :=
  pyInt ((env key).getD dflt)

/-- Function.DEFAULT_MEMORY (function.py line 29).  The source reads the
environment variable KAPPA_DEFAULT_TIMEOUT here, with default "128". -/
def DEFAULT_MEMORY (env : String → Option String) : Option Int :=
  pyGetenvInt env "KAPPA_DEFAULT_TIMEOUT" "128"

/-- Function.DEFAULT_TIMEOUT (function.py line 30): KAPPA_DEFAULT_TIMEOUT,
default "3". -/
def DEFAULT_TIMEOUT (env : String → Option String) : Option Int :=
  pyGetenvInt env "KAPPA_DEFAULT_TIMEOUT" "3"

/-- _FakeLambdaContext.get_remaining_time_in_millis (function.py 340-343).
`timeout` is the configured integer timeout in seconds; `start` and `now` are
clock readings in seconds, embedded as rationals. -/
def getRemainingTimeInMillis (timeout : Int) (start now : ℚ) : Int :=
  let time_used : ℚ := now - start
  let time_left : ℚ := (timeout : ℚ) * 1000 - time_used
  round (time_left * 1000)

/-- Claim C10: for a fabricated local-invocation context with timeout t
seconds and elapsed time d seconds since the captured start, the
remaining-time accessor returns round((t*1000 - d)*1000); in particular with
zero elapsed time it returns t*1000000, one thousand times the t*1000
milliseconds its name implies. -/
theorem c10_remaining_time_microseconds (t : Int) (s d : ℚ) :
    getRemainingTimeInMillis t s (s + d) = round (((t : ℚ) * 1000 - d) * 1000) ∧
    getRemainingTimeInMillis t s s = t * 1000000 := by
  constructor
  · simp only [getRemainingTimeInMillis]
    congr 1
    ring
  · simp only [getRemainingTimeInMillis]
    have h : ((t : ℚ) * 1000 - (s - s)) * 1000 = ((t * 1000000 : Int) : ℚ) := by
      push_cast
      ring
    rw [h, round_intCast]

/-- A concrete environment: the timeout variable is set to 60 and a
(never-read) KAPPA_DEFAULT_MEMORY variable is set to 256. -/
def c5Env : String → Option String := fun k =>
  if k = "KAPPA_DEFAULT_TIMEOUT" then some "60"
  else if k = "KAPPA_DEFAULT_MEMORY" then some "256"
  else none

/-- Claim C5 (code-bug evaluation): with KAPPA_DEFAULT_TIMEOUT=60 and
KAPPA_DEFAULT_MEMORY=256 in the environment, the code sets DEFAULT_MEMORY to
60 (not the claimed 128, and not 256): function.py line 29 reads
KAPPA_DEFAULT_TIMEOUT for the memory default, so the two defaults are not
independent.  With an empty environment the memory default is 128. -/
theorem c5_default_memory_reads_timeout_var :
    DEFAULT_MEMORY c5Env = some 60 ∧
    DEFAULT_MEMORY c5Env ≠ some 128 ∧
    DEFAULT_MEMORY c5Env ≠ some 256 ∧
    DEFAULT_TIMEOUT c5Env = some 60 ∧
    DEFAULT_MEMORY (fun _ => none) = some 128 := by
  refine ⟨by decide, by decide, by decide, by decide, by decide⟩

/-- Configuration object for one policy under iam.policy. -/
structure PolicyConfig where
  pname : Option String := none
deriving DecidableEq

/-- The iam.policy key: a single mapping or a list of mappings
(context.py 41-47). -/
inductive PolicyKey where
  | single (p : PolicyConfig)
  | plist (ps : List PolicyConfig)
deriving DecidableEq

/-- Configuration object for iam.role when it is a mapping. -/
structure RoleConfig where
  rname : Option String := none
deriving DecidableEq

/-- The iam.role key: a boolean or a mapping (context.py 50-56). -/
inductive RoleKey where
  | bool (b : Bool)
  | obj (rc : RoleConfig)
deriving DecidableEq

/-- The iam section of the configuration. -/
structure IamConfig where
  policy : Option PolicyKey := none
  role : Option RoleKey := none
deriving DecidableEq

/-- The lambda.s3 section: bucket, key, only. -/
structure S3Config where
  bucket : String := ""
  key : Option String := none
  only : Bool := false
deriving DecidableEq

/-- One entry of lambda.permissions; only its presence matters to the
claims, the grant parameters are carried opaquely. -/
structure PermissionConfig where
  statement_id : String := ""
deriving DecidableEq

/-- One entry of lambda.event_sources. -/
structure EventSourceConfig where
  arn : String := ""
deriving DecidableEq

/-- The lambda section of the configuration (recognized keys, spec section 6;
an Option field models presence of the key).  handler is a required key;
configurations lacking it raise on first handler access and carry no
information the claims need, so it is a plain field here. -/
structure LambdaConfig where
  fname : Option String := none
  runtime : Option String := none
  handler : String := ""
  description : Option String := none
  timeout : Option Int := none
  memory_size : Option Int := none
  path : Option String := none
  zipfile_name : Option String := none
  s3 : Option S3Config := none
  test_data : Option String := none
  permissions : List PermissionConfig := []
  event_sources : Option (List EventSourceConfig) := none
deriving DecidableEq

/-- The whole configuration document.  The source requires the lambda key
(context.py 59-60 indexes config with it unconditionally); configurations
without it never produce an orchestrator, so lambda is a plain field. -/
structure Config where
  iam : Option IamConfig := none
  lambdaSection : LambdaConfig := {}
  profile : Option String := none
  region : Option String := none
deriving DecidableEq

/-- The orchestrator's role attribute after construction (context.py 50-58):
a Role object, None, or never assigned at all — iam.role = false skips the
assignment and leaves the attribute unset, so later accesses raise. -/
inductive RoleSlot where
  | unassigned
  | noRole
  | role (rc : RoleConfig)
deriving DecidableEq

/-- Event-source binding variants dispatched in context.py 118-139. -/
inductive EventSource where
  | kinesis (cfg : EventSourceConfig)
  | s3 (cfg : EventSourceConfig)
  | sns (cfg : EventSourceConfig)
  | dynamodb (cfg : EventSourceConfig)
deriving DecidableEq

/-- The producer-platform segment a variant was selected for. -/
def EventSource.svcKey : EventSource → String
  | .kinesis _ => "kinesis"
  | .s3 _ => "s3"
  | .sns _ => "sns"
  | .dynamodb _ => "dynamodb"

/-- Splitting a character sequence at every colon, keeping empty parts. -/
def splitColonAux : List Char → List Char → List (List Char)
  | [], acc => [acc.reverse]
  | c :: cs, acc =>
    if c = Char.ofNat 58 then acc.reverse :: splitColonAux cs []
    else splitColonAux cs (c :: acc)

/-- Python str.split(sep=":") without maxsplit. -/
def pySplitColonAll (s : String) : List String :=
  (splitColonAux s.data []).map (fun cs => String.mk cs)

/-- Joining parts back with ":" between them. -/
def joinColon : List String → String
  | [] => ""
  | [s] => s
  | s :: rest => s ++ ":" ++ joinColon rest

/-- Python str.split(sep, maxsplit) for sep=":" and maxsplit=3: at most
four parts, the last one keeping any further separators. -/
def pySplitColon3 (s : String) : List String :=
  let ps := pySplitColonAll s
  if ps.length ≤ 4 then ps
  else ps.take 3 ++ [joinColon (ps.drop 3)]

/-- Dispatch for one event-source config (context.py 120-139): unpack
arn.split with maxsplit 3 into four parts (raising ValueError when there
are fewer), then select the variant by the third part, raising ValueError
for an unknown producer platform. -/
def parseEventSource (e : EventSourceConfig) : Except PyError EventSource :=
  let parts := pySplitColon3 e.arn
  if parts.length = 4 then
    let svc := parts.getD 2 ""
    if svc = "kinesis" then .ok (.kinesis e)
    else if svc = "s3" then .ok (.s3 e)
    else if svc = "sns" then .ok (.sns e)
    else if svc = "dynamodb" then .ok (.dynamodb e)
    else .error (.valueError ("Unknown event source: " ++ e.arn))
  else .error (.valueError "not enough values to unpack")

/-- The loop of Context._create_event_sources: first failure raises. -/
def parseEventSources : List EventSourceConfig → Except PyError (List EventSource)
  | [] => .ok []
  | e :: rest =>
    match parseEventSource e with
    | .error er => .error er
    | .ok es =>
      match parseEventSources rest with
      | .error er => .error er
      | .ok tail => .ok (es :: tail)

/-- The orchestrator state after Context.__init__. -/
structure Context where
  name : String
  config : Config
  policies : Option (List PolicyConfig)
  roleSlot : RoleSlot
  function : LambdaConfig
  event_sources : List EventSource
deriving DecidableEq

/-- The policies attribute computed by Context.__init__ (context.py 41-49):
a one-element list for a single mapping, the list itself for a list, and
None when no policy config is given. -/
def contextPolicies (c : Config) : Option (List PolicyConfig) :=
  match c.iam with
  | some ic =>
    match ic.policy with
    | some (.single p) => some [p]
    | some (.plist ps) => some ps
    | none => none
  | none => none

/-- The role attribute computed by Context.__init__ (context.py 50-58):
role=true means an empty role config; role=false skips the assignment,
leaving the attribute unset; a missing key assigns None. -/
def contextRoleSlot (c : Config) : RoleSlot :=
  match c.iam with
  | some ic =>
    match ic.role with
    | some (.bool true) => .role {}
    | some (.bool false) => .unassigned
    | some (.obj rc) => .role rc
    | none => .noRole
  | none => .noRole

/-- Context.__init__ (context.py 32-62): build policies, role, the single
Function from the lambda section, then dispatch the event sources, whose
unknown-platform error propagates out of construction.  No remote call is
made (the construction does not consult a World at all). -/
def mkContext (name : String) (c : Config) : Except PyError Context :=
  match parseEventSources ((c.lambdaSection.event_sources).getD []) with
  | .error er => .error er
  | .ok ess =>
    .ok ⟨name, c, contextPolicies c, contextRoleSlot c, c.lambdaSection, ess⟩

/-- Python truthiness of the policies attribute: None and the empty list
are both falsy at every `if self.policies:` site. -/
def policiesTruthy : Option (List PolicyConfig) → Bool
  | some ps => !ps.isEmpty
  | none => false

/-- Outcomes of the remote platform and local filesystem for one run.
Flags model a ClientError raised by the named call; calls whose failure
cannot change control flow or the emitted trace need no flag. -/
structure World where
  defaultTimeout : Int := 3
  defaultMemory : Int := 128
  listdir : String → List String := fun _ => []
  getRole : Option String := none
  getFunctionStatus : Option String := none
  getRoleStatus : Option String := none
  policyStatus : Nat → Option String := fun _ => none
  esStatus : Nat → Option String := fun _ => none
  policyArn : Nat → Option String := fun _ => none
  roleExists : Bool := false
  createRoleFails : Bool := false
  attachFails : Nat → Bool := fun _ => false
  detachFails : Nat → Bool := fun _ => false
  s3PutFails : Bool := false
  updateCodeFails : Bool := false

/-- Mutating remote calls, sleeps and local packaging recorded by the
operations, in order of attempt.  Policy and event-source steps are
spec-modelled (their modules are not under src/). -/
inductive Step where
  | policyCreate (i : Nat)
  | createRole
  | putRolePolicy
  | attachPolicy (i : Nat)
  | sleep (secs : Nat)
  | zip
  | s3Upload
  | createFunction (runtime : String) (role : Option String)
      (handler desc : String) (timeout memory : Int)
  | addPermission (i : Nat)
  | updateFunctionCode
  | updateFunctionConfiguration (role : Option String)
      (handler desc : String) (timeout memory : Int)
  | eventSourceRemove (i : Nat)
  | logDelete
  | deleteFunction
  | detachPolicy (i : Nat)
  | deleteRole
  | policyDelete (i : Nat)
deriving DecidableEq

/-- Function.handler (function.py 53-55): required key. -/
def fnHandler (cfg : LambdaConfig) : String := cfg.handler

/-- Function.description (function.py 57-59). -/
def fnDescription (cfg : LambdaConfig) : String := cfg.description.getD ""

/-- Function.timeout (function.py 61-63); the class default is an import-time
constant threaded through the World. -/
def fnTimeout (cfg : LambdaConfig) (w : World) : Int := cfg.timeout.getD w.defaultTimeout

/-- Function.memory_size (function.py 65-67). -/
def fnMemorySize (cfg : LambdaConfig) (w : World) : Int :=
  cfg.memory_size.getD w.defaultMemory

/-- Function.path (function.py 81-83). -/
def fnPath (cfg : LambdaConfig) : String := cfg.path.getD "src/"

/-- Function.s3_only (function.py 73-75). -/
def fnS3Only (cfg : LambdaConfig) : Bool :=
  match cfg.s3 with
  | some s => s.only
  | none => false

/-- Python str.endswith over the character sequence. -/
def pyEndsWith (s suffix : String) : Bool :=
  suffix.data.isSuffixOf s.data

/-- Context.get_default_runtime (context.py 80-89): list the source
directory; exactly one of the .py / .js markers present selects the
runtime, otherwise None. -/
def getDefaultRuntime (cfg : LambdaConfig) (listdir : String → List String) :
    Option String :=
  let files := listdir (fnPath cfg)
  let python := files.any (fun f => pyEndsWith f ".py")
  let javascript := files.any (fun f => pyEndsWith f ".js")
  if python && !javascript then some "python2.7"
  else if javascript && !python then some "nodejs"
  else none

/-- Function.runtime (function.py 45-51): explicit config wins; else a
truthy inferred runtime; else the indexing of the missing key raises. -/
def fnRuntime (cfg : LambdaConfig) (listdir : String → List String) :
    Except PyError String :=
  match cfg.runtime with
  | some r => .ok r
  | none =>
    match getDefaultRuntime cfg listdir with
    | some rt => .ok rt
    | none => .error (.keyError "runtime")

/-- Context.exec_role_arn (context.py 76-78): self.role.arn.  Raises
AttributeError when the role attribute is None or was never assigned.
Role.arn (role.py 65-75) resolves through get_role, mapping lookup failure
to None. -/
def execRoleArn (ctx : Context) (w : World) : Except PyError (Option String) :=
  match ctx.roleSlot with
  | .role _ => .ok w.getRole
  | _ => .error .attributeError

/-- Function.create (function.py 166-208): package, resolve the execution
role (outside any try, so its AttributeError propagates), optionally upload
to s3 (a failed upload logs and returns early), register the function unless
upload-only (a KeyError from runtime resolution or a ClientError from
create_function is swallowed by the surrounding except), then attempt each
permission grant. -/
def fnCreate (ctx : Context) (w : World) : List Step × Except PyError Unit :=
  match execRoleArn ctx w with
  | .error e => ([Step.zip], .error e)
  | .ok roleArn =>
    let cfg := ctx.function
    let createSteps : List Step :=
      match fnRuntime cfg w.listdir with
      | .error _ => []
      | .ok rt => [Step.createFunction rt roleArn (fnHandler cfg) (fnDescription cfg)
          (fnTimeout cfg w) (fnMemorySize cfg w)]
    let permSteps : List Step := (List.range cfg.permissions.length).map Step.addPermission
    match cfg.s3 with
    | some _ =>
      if w.s3PutFails then ([Step.zip, Step.s3Upload], .ok ())
      else if fnS3Only cfg then ([Step.zip, Step.s3Upload] ++ permSteps, .ok ())
      else ([Step.zip, Step.s3Upload] ++ createSteps ++ permSteps, .ok ())
    | none => ([Step.zip] ++ createSteps ++ permSteps, .ok ())

/-- The attach loop of Role.create (role.py 129-138): one attach per
configured policy, a ClientError aborting the rest of the loop (the
exception is then caught). -/
def attachLoop (fails : Nat → Bool) : List PolicyConfig → Nat → List Step
  | [], _ => []
  | _ :: rest, i =>
    if fails i then [Step.attachPolicy i]
    else Step.attachPolicy i :: attachLoop fails rest (i + 1)

/-- Role.create (role.py 99-138): existence scan (a read, not recorded);
if absent, create_role then put_role_policy (a ClientError at create_role
skips the inline policy); finally attach every configured policy when the
context has a truthy policies attribute.  Never raises. -/
def roleCreateSteps (ctx : Context) (w : World) : List Step :=
  let base : List Step :=
    if w.roleExists then []
    else if w.createRoleFails then [Step.createRole]
    else [Step.createRole, Step.putRolePolicy]
  let attach : List Step :=
    if policiesTruthy ctx.policies then attachLoop w.attachFails (ctx.policies.getD []) 0
    else []
  base ++ attach

/-- Context.create (context.py 149-159): create each policy when the
policies attribute is truthy (Policy.create is spec-modelled: it provisions
the policy, remote failures are logged, spec sections 4.1 and 7), create the
role when the role attribute is truthy (an unassigned attribute raises),
sleep 5 seconds, then Function.create. -/
def contextCreate (ctx : Context) (w : World) : List Step × Except PyError Unit :=
  let pSteps : List Step :=
    if policiesTruthy ctx.policies then
      (List.range ((ctx.policies.getD []).length)).map Step.policyCreate
    else []
  match ctx.roleSlot with
  | .unassigned => (pSteps, .error .attributeError)
  | .noRole =>
    let f := fnCreate ctx w
    (pSteps ++ [Step.sleep 5] ++ f.1, f.2)
  | .role _ =>
    let f := fnCreate ctx w
    (pSteps ++ roleCreateSteps ctx w ++ [Step.sleep 5] ++ f.1, f.2)

/-- The aggregate returned by Context.status. -/
structure AggStatus where
  policies : Option (List (Option String))
  role : Option String
  function : Option String
  event_sources : List (Option String)
deriving DecidableEq

/-- Context.status (context.py 200-216): policies slot is the list of
policy statuses when the attribute is truthy, else None; role slot is the
role status when the attribute is truthy, else None (an unassigned
attribute raises); function and event-source statuses are remote reads,
"not found" mapping to None.  Policy.status and EventSource.status are
spec-modelled reads (spec sections 4.3 and 4.4).  The policies slot. -/
def statusPolicies (ctx : Context) (w : World) : Option (List (Option String)) :=
  if policiesTruthy ctx.policies then
    some ((List.range ((ctx.policies.getD []).length)).map w.policyStatus)
  else none

/-- The event-source slot of Context.status: one status per binding. -/
def statusEventSources (ctx : Context) (w : World) : List (Option String) :=
  (List.range ctx.event_sources.length).map w.esStatus

/-- Context.status (context.py 200-216) assembled from the slots above; an
unassigned role attribute raises. -/
def contextStatus (ctx : Context) (w : World) : Except PyError AggStatus :=
  match ctx.roleSlot with
  | .unassigned => .error .attributeError
  | .noRole =>
    .ok ⟨statusPolicies ctx w, none, w.getFunctionStatus, statusEventSources ctx w⟩
  | .role _ =>
    .ok ⟨statusPolicies ctx w, w.getRoleStatus, w.getFunctionStatus,
      statusEventSources ctx w⟩

/-- Function.update (function.py 216-238): re-package, push the new code,
then also push the function configuration (role, handler, description,
timeout, memory size); the whole remote part is wrapped in a broad except,
so a failed code update or an unresolvable role attribute skips the
configuration push without raising. -/
def fnUpdate (ctx : Context) (w : World) : List Step :=
  if w.updateCodeFails then [Step.zip, Step.updateFunctionCode]
  else
    match execRoleArn ctx w with
    | .error _ => [Step.zip, Step.updateFunctionCode]
    | .ok roleArn =>
      [Step.zip, Step.updateFunctionCode,
       Step.updateFunctionConfiguration roleArn (fnHandler ctx.function)
         (fnDescription ctx.function) (fnTimeout ctx.function w)
         (fnMemorySize ctx.function w)]

/-- Context.update_code (context.py 173-174). -/
def contextUpdateCode (ctx : Context) (w : World) : List Step :=
  fnUpdate ctx w

/-- The detach loop of Role.delete (role.py 146-150): detach each truthy
policy ARN; a ClientError aborts the loop and, because the except wraps the
whole method body, also skips the delete_role call.  Returns the attempted
steps and whether the loop completed. -/
def detachLoop (fails : Nat → Bool) : List (Option String) → Nat → List Step × Bool
  | [], _ => ([], true)
  | none :: rest, i => detachLoop fails rest (i + 1)
  | some _ :: rest, i =>
    if fails i then ([Step.detachPolicy i], false)
    else
      let r := detachLoop fails rest (i + 1)
      (Step.detachPolicy i :: r.1, r.2)

/-- Role.delete (role.py 140-156): build the list of policy ARNs — a
TypeError when the context's policies attribute is None, uncaught because
only ClientError is handled — detach them, then delete the role. -/
def roleDelete (ctx : Context) (w : World) : List Step × Except PyError Unit :=
  match ctx.policies with
  | none => ([], .error .typeError)
  | some ps =>
    let arns := (List.range ps.length).map w.policyArn
    let r := detachLoop w.detachFails arns 0
    if r.2 then (r.1 ++ [Step.deleteRole], .ok ()) else (r.1, .ok ())

/-- Context.delete (context.py 188-198): remove each event source
(spec-modelled: removal of a missing binding or a remote failure is logged,
spec sections 4.1 and 4.4), delete the log channel (spec-modelled,
non-raising), attempt the function deletion (ClientError caught in
function.py 240-248), sleep, delete the role when the attribute is truthy
(propagating whatever Role.delete raises), sleep, then delete each policy
when the attribute is truthy (Policy.delete spec-modelled, logged
failures).  First, one removal per binding. -/
def deleteEventSourceSteps (ctx : Context) : List Step :=
  (List.range ctx.event_sources.length).map Step.eventSourceRemove

/-- The unconditional head of Context.delete (context.py 189-193): event
source removals, the log deletion, the function deletion attempt, and the
first sleep. -/
def deletePre (ctx : Context) : List Step :=
  deleteEventSourceSteps ctx ++ [Step.logDelete, Step.deleteFunction, Step.sleep 5]

/-- The policy deletions at the tail of Context.delete (context.py
197-198), guarded by truthiness of the policies attribute. -/
def deletePost (ctx : Context) : List Step :=
  if policiesTruthy ctx.policies then
    (List.range ((ctx.policies.getD []).length)).map Step.policyDelete
  else []

/-- Context.delete (context.py 188-198) assembled from the segments above:
event sources, log, function, sleep, then the role when the attribute is
truthy (propagating whatever Role.delete raises; an unassigned attribute
raises AttributeError at the truthiness test), sleep, then the policies. -/
def contextDelete (ctx : Context) (w : World) : List Step × Except PyError Unit :=
  match ctx.roleSlot with
  | .unassigned => (deletePre ctx, .error .attributeError)
  | .noRole => (deletePre ctx ++ [Step.sleep 5] ++ deletePost ctx, .ok ())
  | .role _ =>
    match roleDelete ctx w with
    | (tr, .error e) => (deletePre ctx ++ tr, .error e)
    | (tr, .ok _) => (deletePre ctx ++ tr ++ [Step.sleep 5] ++ deletePost ctx, .ok ())

/-- Function.arn (function.py 93-103): lazily resolved remote identity.
Given the current cache and the current remote lookup answer, returns the
value seen, the new cache, and whether a remote lookup was made: a cached
value is returned without any remote call; a successful lookup is cached; a
failed lookup is logged and leaves the cache empty. -/
def fnArnAccess (cache lookup : Option String) :
    Option String × Option String × Bool :=
  match cache with
  | some a => (some a, some a, false)
  | none =>
    match lookup with
    | some a => (some a, some a, true)
    | none => (none, none, true)

/-- The two branches of Function.deploy. -/
inductive DeployPath where
  | create
  | update
deriving DecidableEq

/-- Function.exists and Function.deploy (function.py 112-113, 210-214):
deploy takes the update path when the identity resolves and the create path
otherwise.  Returns the path together with the new ARN cache and whether a
remote lookup happened. -/
def fnDeploy (cache lookup : Option String) :
    DeployPath × Option String × Bool :=
  let r := fnArnAccess cache lookup
  ((if r.1.isSome then .update else .create), r.2.1, r.2.2)

/-- Recognizer for the create_function call. -/
def Step.isCreateFunction : Step → Bool
  | .createFunction .. => true
  | _ => false

/-- Recognizer for the update_function_configuration call. -/
def Step.isUpdateConfiguration : Step → Bool
  | .updateFunctionConfiguration .. => true
  | _ => false

/-- Recognizer for any IAM role or policy resource operation. -/
def Step.isIamStep : Step → Bool
  | .policyCreate _ => true
  | .createRole => true
  | .putRolePolicy => true
  | .attachPolicy _ => true
  | .detachPolicy _ => true
  | .deleteRole => true
  | .policyDelete _ => true
  | _ => false

/-- Recognizer for an event-source removal. -/
def Step.isEventSourceRemove : Step → Bool
  | .eventSourceRemove _ => true
  | _ => false

/-- Recognizer for the delete_function call. -/
def Step.isDeleteFunction : Step → Bool
  | .deleteFunction => true
  | _ => false

/-- Recognizer for the delete_role call. -/
def Step.isDeleteRole : Step → Bool
  | .deleteRole => true
  | _ => false

/-- Recognizer for a policy deletion. -/
def Step.isPolicyDelete : Step → Bool
  | .policyDelete _ => true
  | _ => false

/-- Recognizer for a policy detach. -/
def Step.isDetachPolicy : Step → Bool
  | .detachPolicy _ => true
  | _ => false

/-- A default world: every remote lookup answers not-found, no call fails. -/
def w0 : World := {}

/-- The end-to-end configuration of claim C1: a lambda section with handler,
path and an explicit runtime, and no iam section. -/
def c1cfg : Config :=
  { iam := none,
    lambdaSection := { handler := "h.handler", runtime := some "marker-A", path := some "src/" } }

/-- The orchestrator built from c1cfg. -/
def ctx1 : Context :=
  { name := "test", config := c1cfg, policies := none, roleSlot := .noRole,
    function := c1cfg.lambdaSection, event_sources := [] }

/-- Claim C1 (code-bug evaluation): from c1cfg the orchestrator is built
with policies None and role None; create() performs no policy or role step
and waits the settle interval, but then raises AttributeError while
resolving exec_role_arn (self.role is None), so no create_function call is
ever attempted — the code diverges from the claimed direct creation of the
function.  status() does return the claimed aggregate: absent policies,
absent role, the remote function lookup result, and an empty
event-source list. -/
theorem c1_create_without_iam_raises :
    mkContext "test" c1cfg = .ok ctx1 ∧
    contextCreate ctx1 w0 = ([Step.sleep 5, Step.zip], .error .attributeError) ∧
    ((contextCreate ctx1 w0).1.any Step.isCreateFunction) = false ∧
    ((contextCreate ctx1 w0).1.any Step.isIamStep) = false ∧
    contextStatus ctx1 w0 = .ok ⟨none, none, w0.getFunctionStatus, []⟩ := by
  refine ⟨rfl, rfl, rfl, rfl, rfl⟩

/-- Projection of the policies attribute out of a construction result. -/
def policiesOfResult : Except PyError Context → Option (Option (List PolicyConfig))
  | .ok ctx => some ctx.policies
  | .error _ => none

/-- A configuration with a lambda section and no iam section. -/
def c4cfg : Config := { iam := none, lambdaSection := { handler := "h" } }

/-- Claim C4 counterexample: constructed from a configuration with no
policy configuration, the orchestrator's policies attribute is None — a
null value, not the empty list the claim asserts. -/
theorem c4_policies_null_not_empty :
    policiesOfResult (mkContext "n" c4cfg) = some none ∧
    policiesOfResult (mkContext "n" c4cfg) ≠ some (some []) := by
  exact ⟨rfl, by decide⟩

/-- Does the configuration request a managed role: an iam.role key that is
true or a mapping (the claim's condition). -/
def requestsManagedRole (c : Config) : Bool :=
  match c.iam with
  | some ic =>
    match ic.role with
    | some (.bool true) => true
    | some (.obj _) => true
    | _ => false
  | none => false

/-- Claim C4 (amended): after a successful construction the orchestrator
holds exactly the one Function built from the lambda section; a Role object
is present iff the configuration requests a managed role (boolean-true or
mapping forms); and when no policy configuration is given the policies
attribute is None — a null value, not an empty list (the call sites test
truthiness, under which the two are indistinguishable). -/
theorem roleSlot_iff_requested (c : Config) :
    (∃ rc, contextRoleSlot c = .role rc) ↔ requestsManagedRole c = true := by
  unfold contextRoleSlot requestsManagedRole
  rcases c with ⟨iam, ls, p, r⟩
  cases iam with
  | none => simp
  | some ic =>
    rcases ic with ⟨pol, rol⟩
    cases rol with
    | none => simp
    | some rk =>
      cases rk with
      | bool b => cases b <;> simp
      | obj rc => simp

theorem contextPolicies_none_of_no_iam (c : Config) (h : c.iam = none) :
    contextPolicies c = none := by
  simp [contextPolicies, h]

theorem contextPolicies_none_of_no_policy (c : Config) (ic : IamConfig)
    (h : c.iam = some ic) (hp : ic.policy = none) : contextPolicies c = none := by
  simp [contextPolicies, h, hp]

theorem c4_constructor_invariants (name : String) (c : Config) (ctx : Context)
    (h : mkContext name c = .ok ctx) :
    ctx.function = c.lambdaSection ∧
    ((∃ rc, ctx.roleSlot = .role rc) ↔ requestsManagedRole c = true) ∧
    (c.iam = none → ctx.policies = none) ∧
    (∀ ic, c.iam = some ic → ic.policy = none → ctx.policies = none) := by
  unfold mkContext at h
  cases hps : parseEventSources ((c.lambdaSection.event_sources).getD []) with
  | error e => rw [hps] at h; exact absurd h (by simp)
  | ok ess =>
    rw [hps] at h
    have hctx : ctx = ⟨name, c, contextPolicies c, contextRoleSlot c, c.lambdaSection, ess⟩ := by
      cases h; rfl
    subst hctx
    refine ⟨rfl, roleSlot_iff_requested c, ?_, ?_⟩
    · intro hiam
      exact contextPolicies_none_of_no_iam c hiam
    · intro ic hiam hpol
      exact contextPolicies_none_of_no_policy c ic hiam hpol

/-- A configuration requesting a managed role (mapping form) and a single
policy. -/
def c4bcfg : Config :=
  { iam := some { policy := some (.single {}), role := some (.obj {}) },
    lambdaSection := { handler := "h" } }

/-- The orchestrator built from c4bcfg. -/
def ctx4b : Context :=
  { name := "n", config := c4bcfg, policies := some [{}], roleSlot := .role {},
    function := c4bcfg.lambdaSection, event_sources := [] }

/-- Witness for claim C4: the amended invariants instantiated at c4bcfg. -/
theorem c4_constructor_invariants_witness :
    ctx4b.function = c4bcfg.lambdaSection ∧
    ((∃ rc, ctx4b.roleSlot = .role rc) ↔ requestsManagedRole c4bcfg = true) ∧
    (c4bcfg.iam = none → ctx4b.policies = none) ∧
    (∀ ic, c4bcfg.iam = some ic → ic.policy = none → ctx4b.policies = none) :=
  c4_constructor_invariants "n" c4bcfg ctx4b rfl

/-- A configuration whose iam.role key is the literal false. -/
def c8cfg : Config :=
  { iam := some { role := some (.bool false) }, lambdaSection := { handler := "h" } }

/-- The orchestrator built from c8cfg: the role attribute was never
assigned. -/
def ctx8 : Context :=
  { name := "n", config := c8cfg, policies := none, roleSlot := .unassigned,
    function := c8cfg.lambdaSection, event_sources := [] }

/-- Claim C8 counterexample: an orchestrator built from iam.role = false
constructs successfully, but status() raises AttributeError (the role
attribute was never assigned, context.py 50-58), so status() does not
return an aggregate on every orchestrator. -/
theorem c8_status_raises_on_role_false :
    mkContext "n" c8cfg = .ok ctx8 ∧
    contextStatus ctx8 w0 = .error .attributeError := by
  exact ⟨rfl, rfl⟩

/-- Claim C8 (amended): on every orchestrator whose role attribute was
assigned (every configuration except iam.role = false), status() returns an
aggregate with the four slots; an unmanaged policies slot (no configured
policies) is the explicit absent marker None, not an empty container, and
an unmanaged role slot is None; the function slot is the remote lookup
result and the event-source slot has one status per binding. -/
theorem statusPolicies_none (ctx : Context) (w : World) (hp : ctx.policies = none) :
    statusPolicies ctx w = none := by
  simp [statusPolicies, hp, policiesTruthy]

theorem statusPolicies_truthy (ctx : Context) (w : World)
    (hp : policiesTruthy ctx.policies = true) :
    statusPolicies ctx w =
      some ((List.range ((ctx.policies.getD []).length)).map w.policyStatus) := by
  simp [statusPolicies, hp]

theorem statusEventSources_length (ctx : Context) (w : World) :
    (statusEventSources ctx w).length = ctx.event_sources.length := by
  simp [statusEventSources]

theorem c8_status_aggregate (ctx : Context) (w : World)
    (hr : ctx.roleSlot ≠ .unassigned) :
    ∃ agg, contextStatus ctx w = .ok agg ∧
      (ctx.policies = none → agg.policies = none) ∧
      (policiesTruthy ctx.policies = true →
        agg.policies = some ((List.range ((ctx.policies.getD []).length)).map w.policyStatus)) ∧
      (ctx.roleSlot = .noRole → agg.role = none) ∧
      agg.function = w.getFunctionStatus ∧
      agg.event_sources.length = ctx.event_sources.length := by
  cases hrs : ctx.roleSlot with
  | unassigned => exact absurd hrs hr
  | noRole =>
    refine ⟨⟨statusPolicies ctx w, none, w.getFunctionStatus, statusEventSources ctx w⟩,
      ?_, ?_, ?_, ?_, rfl, statusEventSources_length ctx w⟩
    · unfold contextStatus; rw [hrs]
    · intro hp; exact statusPolicies_none ctx w hp
    · intro hp; exact statusPolicies_truthy ctx w hp
    · intro _; rfl
  | role rc =>
    refine ⟨⟨statusPolicies ctx w, w.getRoleStatus, w.getFunctionStatus,
      statusEventSources ctx w⟩, ?_, ?_, ?_, ?_, rfl, statusEventSources_length ctx w⟩
    · unfold contextStatus; rw [hrs]
    · intro hp; exact statusPolicies_none ctx w hp
    · intro hp; exact statusPolicies_truthy ctx w hp
    · intro hcontra; exact absurd hcontra (by simp)

/-- A configuration with a managed role (so the configuration push inside
update() is reached). -/
def c2cfg : Config :=
  { iam := some { role := some (.bool true) },
    lambdaSection := { handler := "h.handler" } }

/-- The orchestrator built from c2cfg. -/
def ctx2 : Context :=
  { name := "n", config := c2cfg, policies := none, roleSlot := .role {},
    function := c2cfg.lambdaSection, event_sources := [] }

/-- A world where the role ARN resolves and no call fails. -/
def w2 : World := { getRole := some "arn:aws:iam::0:role/test" }

/-- Claim C2 counterexample: update_code() on a concrete orchestrator emits
an update_function_configuration call pushing role, handler, description,
timeout and memory size (function.py 228-236), so it does not leave the
remote function's configuration untouched as the claim states. -/
theorem c2_update_code_not_code_only :
    mkContext "n" c2cfg = .ok ctx2 ∧
    ((contextUpdateCode ctx2 w2).any Step.isUpdateConfiguration) = true ∧
    contextUpdateCode ctx2 w2 =
      [Step.zip, Step.updateFunctionCode,
       Step.updateFunctionConfiguration (some "arn:aws:iam::0:role/test")
         "h.handler" "" 3 128] := by
  exact ⟨rfl, rfl, rfl⟩

/-- Claim C2 (amended): update_code() delegates to the Function's update
path, which never touches role or policy resources, but which, when the
remote code update succeeds and the role attribute is available, also
pushes the function configuration (role, handler, description, timeout,
memory size) after updating the code. -/
theorem c2_update_code_frame (ctx : Context) (w : World) :
    ((contextUpdateCode ctx w).all fun s => !(Step.isIamStep s)) = true ∧
    (∀ rc, ctx.roleSlot = .role rc → w.updateCodeFails = false →
      contextUpdateCode ctx w =
        [Step.zip, Step.updateFunctionCode,
         Step.updateFunctionConfiguration w.getRole (fnHandler ctx.function)
           (fnDescription ctx.function) (fnTimeout ctx.function w)
           (fnMemorySize ctx.function w)]) := by
  constructor
  · unfold contextUpdateCode fnUpdate
    cases hw : w.updateCodeFails with
    | true => simp [Step.isIamStep]
    | false =>
      cases hrs : ctx.roleSlot with
      | unassigned => simp [execRoleArn, hrs, Step.isIamStep]
      | noRole => simp [execRoleArn, hrs, Step.isIamStep]
      | role rc => simp [execRoleArn, hrs, Step.isIamStep]
  · intro rc hrs hw
    unfold contextUpdateCode fnUpdate
    simp [hw, execRoleArn, hrs]

/-- Witness for claim C2: the amended statement instantiated at ctx2/w2. -/
theorem c2_update_code_frame_witness :
    ((contextUpdateCode ctx2 w2).all fun s => !(Step.isIamStep s)) = true ∧
    contextUpdateCode ctx2 w2 =
      [Step.zip, Step.updateFunctionCode,
       Step.updateFunctionConfiguration w2.getRole (fnHandler ctx2.function)
         (fnDescription ctx2.function) (fnTimeout ctx2.function w2)
         (fnMemorySize ctx2.function w2)] :=
  ⟨(c2_update_code_frame ctx2 w2).1, (c2_update_code_frame ctx2 w2).2 {} rfl rfl⟩

/-- Claim C6: runtime resolution.  With no explicit runtime in the config,
a source directory carrying the .py marker and not the .js marker resolves
to "python2.7", the converse resolves to "nodejs", and a directory carrying
both markers or neither raises a KeyError from the access to the missing
explicit runtime key. -/
theorem c6_runtime_inference (cfg : LambdaConfig) (listdir : String → List String)
    (h : cfg.runtime = none) :
    ((listdir (fnPath cfg)).any (fun f => pyEndsWith f ".py") = true →
      (listdir (fnPath cfg)).any (fun f => pyEndsWith f ".js") = false →
      fnRuntime cfg listdir = .ok "python2.7") ∧
    ((listdir (fnPath cfg)).any (fun f => pyEndsWith f ".js") = true →
      (listdir (fnPath cfg)).any (fun f => pyEndsWith f ".py") = false →
      fnRuntime cfg listdir = .ok "nodejs") ∧
    ((listdir (fnPath cfg)).any (fun f => pyEndsWith f ".py") =
        (listdir (fnPath cfg)).any (fun f => pyEndsWith f ".js") →
      fnRuntime cfg listdir = .error (.keyError "runtime")) := by
  refine ⟨?_, ?_, ?_⟩
  · intro hpy hjs
    unfold fnRuntime getDefaultRuntime
    rw [h]
    simp [hpy, hjs]
  · intro hjs hpy
    unfold fnRuntime getDefaultRuntime
    rw [h]
    simp [hpy, hjs]
  · intro heq
    unfold fnRuntime getDefaultRuntime
    rw [h]
    cases hpy : (listdir (fnPath cfg)).any (fun f => pyEndsWith f ".py") with
    | true =>
      have hjs : (listdir (fnPath cfg)).any (fun f => pyEndsWith f ".js") = true := by
        rw [← heq, hpy]
      simp [hpy, hjs]
    | false =>
      have hjs : (listdir (fnPath cfg)).any (fun f => pyEndsWith f ".js") = false := by
        rw [← heq, hpy]
      simp [hpy, hjs]

/-- A lambda config with no explicit runtime. -/
def c6cfg : LambdaConfig := { handler := "h" }

/-- Witness for claim C6: the three branches at concrete directory
listings. -/
theorem c6_runtime_inference_witness :
    fnRuntime c6cfg (fun _ => ["a.py", "b.txt"]) = .ok "python2.7" ∧
    fnRuntime c6cfg (fun _ => ["a.js"]) = .ok "nodejs" ∧
    fnRuntime c6cfg (fun _ => ["a.py", "a.js"]) = .error (.keyError "runtime") ∧
    fnRuntime c6cfg (fun _ => ["b.txt"]) = .error (.keyError "runtime") :=
  ⟨(c6_runtime_inference c6cfg (fun _ => ["a.py", "b.txt"]) rfl).1 (by decide) (by decide),
   (c6_runtime_inference c6cfg (fun _ => ["a.js"]) rfl).2.1 (by decide) (by decide),
   (c6_runtime_inference c6cfg (fun _ => ["a.py", "a.js"]) rfl).2.2 (by decide),
   (c6_runtime_inference c6cfg (fun _ => ["b.txt"]) rfl).2.2 (by decide)⟩

/-- Claim C7: deploy() takes the create path exactly when the remote
identity does not resolve and the update path when it does; within one
deploy the existence check is a single lookup whose successful result is
cached (a cached identity causes no further remote lookup, a failed lookup
is not cached), so a second deploy() after the identity has resolved takes
the update path without a duplicate create. -/
theorem c7_deploy_idempotent (l1 l2 : Option String) :
    (fnDeploy none l1).1 = (if l1.isSome then DeployPath.update else DeployPath.create) ∧
    (fnDeploy none l1).2.1 = l1 ∧
    (fnDeploy none l1).2.2 = true ∧
    (∀ a, fnDeploy (some a) l2 = (DeployPath.update, some a, false)) ∧
    (l1 = none → l2.isSome = true →
      (fnDeploy (fnDeploy none l1).2.1 l2).1 = DeployPath.update) := by
  refine ⟨?_, ?_, ?_, fun a => rfl, ?_⟩
  · cases l1 <;> rfl
  · cases l1 <;> rfl
  · cases l1 <;> rfl
  · intro h1 h2
    subst h1
    cases l2 with
    | none => exact absurd h2 (by simp)
    | some a => rfl

/-- Witness for claim C7: both runs concretely — a first deploy against an
unresolved identity takes the create path, the second, once the identity
resolves, the update path with the resolved ARN cached. -/
theorem c7_deploy_idempotent_witness :
    (fnDeploy none (none : Option String)).1 = DeployPath.create ∧
    (fnDeploy none (none : Option String)).2.1 = none ∧
    (fnDeploy none (none : Option String)).2.2 = true ∧
    fnDeploy (some "arn-f") none = (DeployPath.update, some "arn-f", false) ∧
    (fnDeploy (fnDeploy none none).2.1 (some "arn-f")).1 = DeployPath.update := by
  have h := c7_deploy_idempotent none (some "arn-f")
  exact ⟨h.1, h.2.1, h.2.2.1, h.2.2.2.1 "arn-f", h.2.2.2.2 rfl rfl⟩

/-- Witness for claim C8: the amended aggregate shape at a concrete
orchestrator with no managed role or policies. -/
theorem c8_status_aggregate_witness :
    ∃ agg, contextStatus ctx1 w0 = .ok agg ∧
      (ctx1.policies = none → agg.policies = none) ∧
      (policiesTruthy ctx1.policies = true →
        agg.policies = some ((List.range ((ctx1.policies.getD []).length)).map w0.policyStatus)) ∧
      (ctx1.roleSlot = .noRole → agg.role = none) ∧
      agg.function = w0.getFunctionStatus ∧
      agg.event_sources.length = ctx1.event_sources.length :=
  c8_status_aggregate ctx1 w0 (by decide)

/-- The four producer-platform segments known to the dispatch. -/
def knownSvc (s : String) : Bool :=
  s = "kinesis" || s = "s3" || s = "sns" || s = "dynamodb"

theorem parseEventSource_error_shape (e : EventSourceConfig) (er : PyError)
    (h : parseEventSource e = .error er) : ∃ m, er = .valueError m := by
  simp only [parseEventSource] at h
  split at h
  · split at h
    · simp at h
    · split at h
      · simp at h
      · split at h
        · simp at h
        · split at h
          · simp at h
          · injection h with h2
            exact ⟨_, h2.symm⟩
  · injection h with h2
    exact ⟨_, h2.symm⟩

theorem parseEventSource_unknown (e : EventSourceConfig)
    (h4 : (pySplitColon3 e.arn).length = 4)
    (hk : knownSvc ((pySplitColon3 e.arn).getD 2 "") = false) :
    parseEventSource e = .error (.valueError ("Unknown event source: " ++ e.arn)) := by
  simp only [parseEventSource]
  simp only [knownSvc, Bool.or_eq_false_iff, decide_eq_false_iff_not] at hk
  obtain ⟨⟨⟨h1, h2⟩, h3⟩, h5⟩ := hk
  rw [if_pos h4, if_neg h1, if_neg h2, if_neg h3, if_neg h5]

theorem parseEventSource_known (e : EventSourceConfig) (es : EventSource)
    (h : parseEventSource e = .ok es) :
    EventSource.svcKey es = (pySplitColon3 e.arn).getD 2 "" := by
  simp only [parseEventSource] at h
  split at h
  · split at h
    · rename_i hc
      injection h with h2
      subst h2
      exact hc.symm
    · split at h
      · rename_i hc
        injection h with h2
        subst h2
        exact hc.symm
      · split at h
        · rename_i hc
          injection h with h2
          subst h2
          exact hc.symm
        · split at h
          · rename_i hc
            injection h with h2
            subst h2
            exact hc.symm
          · simp at h
  · simp at h

theorem parseEventSources_error_mem (L : List EventSourceConfig) (er : PyError)
    (h : parseEventSources L = .error er) :
    ∃ e, e ∈ L ∧ parseEventSource e = .error er := by
  induction L with
  | nil => simp [parseEventSources] at h
  | cons a rest ih =>
    simp only [parseEventSources] at h
    cases ha : parseEventSource a with
    | error er2 =>
      rw [ha] at h
      injection h with h2
      exact ⟨a, by simp, by rw [ha, h2]⟩
    | ok x0 =>
      rw [ha] at h
      cases hr : parseEventSources rest with
      | error er2 =>
        rw [hr] at h
        injection h with h2
        obtain ⟨e, he, hpe⟩ := ih (by rw [hr, h2])
        exact ⟨e, by simp [he], hpe⟩
      | ok tail => rw [hr] at h; simp at h

theorem parseEventSources_mem_ok (L : List EventSourceConfig)
    (es : List EventSource) (h : parseEventSources L = .ok es)
    (e : EventSourceConfig) (he : e ∈ L) : ∃ x, parseEventSource e = .ok x := by
  induction L generalizing es with
  | nil => simp at he
  | cons a rest ih =>
    simp only [parseEventSources] at h
    cases ha : parseEventSource a with
    | error er => rw [ha] at h; simp at h
    | ok x0 =>
      rw [ha] at h
      cases hr : parseEventSources rest with
      | error er => rw [hr] at h; simp at h
      | ok tail =>
        rcases List.mem_cons.mp he with rfl | hmem
        · exact ⟨x0, ha⟩
        · exact ih tail hr hmem

theorem parseEventSources_ok_index (L : List EventSourceConfig)
    (es : List EventSource) (h : parseEventSources L = .ok es) :
    es.length = L.length ∧
    ∀ i x, es.get? i = some x →
      ∃ e, L.get? i = some e ∧ parseEventSource e = .ok x := by
  induction L generalizing es with
  | nil =>
    simp [parseEventSources] at h
    subst h
    exact ⟨rfl, by intro i x hx; simp at hx⟩
  | cons a rest ih =>
    simp only [parseEventSources] at h
    cases ha : parseEventSource a with
    | error er => rw [ha] at h; simp at h
    | ok x0 =>
      rw [ha] at h
      cases hr : parseEventSources rest with
      | error er => rw [hr] at h; simp at h
      | ok tail =>
        rw [hr] at h
        injection h with h2
        subst h2
        obtain ⟨hlen, hidx⟩ := ih tail hr
        refine ⟨by simp [hlen], ?_⟩
        intro i x hx
        cases i with
        | zero =>
          simp at hx
          subst hx
          exact ⟨a, rfl, ha⟩
        | succ n =>
          simp only [List.get?_cons_succ] at hx
          obtain ⟨e2, he2, hp2⟩ := hidx n x hx
          exact ⟨e2, by simpa using he2, hp2⟩

theorem mkContext_event_sources (name : String) (c : Config) (ctx : Context)
    (h : mkContext name c = .ok ctx) :
    parseEventSources ((c.lambdaSection.event_sources).getD []) = .ok ctx.event_sources := by
  unfold mkContext at h
  cases hps : parseEventSources ((c.lambdaSection.event_sources).getD []) with
  | error e => rw [hps] at h; simp at h
  | ok ess => rw [hps] at h; cases h; rfl

/-- Claim C9: for a configuration with an event-source list, any entry whose
ARN splits into the four parts with an unknown producer-platform segment
makes construction raise a ValueError before any remote operation
(construction consults no World at all); and on successful construction
every binding is the variant selected by its entry's segment. -/
theorem c9_event_source_dispatch (name : String) (c : Config)
    (l : List EventSourceConfig) (hl : c.lambdaSection.event_sources = some l) :
    ((∃ e, e ∈ l ∧ (pySplitColon3 e.arn).length = 4 ∧
        knownSvc ((pySplitColon3 e.arn).getD 2 "") = false) →
      ∃ msg, mkContext name c = .error (.valueError msg)) ∧
    (∀ ctx, mkContext name c = .ok ctx →
      ctx.event_sources.length = l.length ∧
      ∀ i x, ctx.event_sources.get? i = some x →
        ∃ e, l.get? i = some e ∧ parseEventSource e = .ok x ∧
          EventSource.svcKey x = (pySplitColon3 e.arn).getD 2 "") := by
  have hgd : (c.lambdaSection.event_sources).getD [] = l := by rw [hl]; rfl
  constructor
  · rintro ⟨e, hmem, h4, hk⟩
    cases hres : parseEventSources l with
    | ok ess =>
      obtain ⟨x, hx⟩ := parseEventSources_mem_ok l ess hres e hmem
      rw [parseEventSource_unknown e h4 hk] at hx
      exact absurd hx (by simp)
    | error er =>
      obtain ⟨e2, _, hpe2⟩ := parseEventSources_error_mem l er hres
      obtain ⟨m, hm⟩ := parseEventSource_error_shape e2 er hpe2
      refine ⟨m, ?_⟩
      unfold mkContext
      rw [hgd, hres, hm]
  · intro ctx hctx
    have hes := mkContext_event_sources name c ctx hctx
    rw [hgd] at hes
    obtain ⟨hlen, hidx⟩ := parseEventSources_ok_index l ctx.event_sources hes
    refine ⟨hlen, ?_⟩
    intro i x hx
    obtain ⟨e, he, hp⟩ := hidx i x hx
    exact ⟨e, he, hp, parseEventSource_known e x hp⟩

/-- A configuration with one event source of unknown producer platform. -/
def c9bad : Config :=
  { lambdaSection :=
    { handler := "h", event_sources := some [{ arn := "arn:aws:foo:bar" }] } }

/-- The event-source list of the well-formed configuration below. -/
def l9 : List EventSourceConfig :=
  [{ arn := "arn:aws:kinesis:us-east-1:0:stream/s" }, { arn := "arn:aws:s3:::bucket" }]

/-- A configuration with two known event sources. -/
def c9good : Config :=
  { lambdaSection := { handler := "h", event_sources := some l9 } }

/-- The orchestrator built from c9good. -/
def ctx9 : Context :=
  { name := "n", config := c9good, policies := none, roleSlot := .noRole,
    function := c9good.lambdaSection,
    event_sources :=
      [.kinesis { arn := "arn:aws:kinesis:us-east-1:0:stream/s" },
       .s3 { arn := "arn:aws:s3:::bucket" }] }

/-- Witness for claim C9: an unknown segment makes construction raise, and
the two known segments select the kinesis and s3 variants. -/
theorem c9_event_source_dispatch_witness :
    (∃ msg, mkContext "n" c9bad = .error (.valueError msg)) ∧
    ctx9.event_sources.length = l9.length ∧
    (∃ e, l9.get? 0 = some e ∧
      parseEventSource e = .ok (.kinesis { arn := "arn:aws:kinesis:us-east-1:0:stream/s" }) ∧
      EventSource.svcKey (.kinesis { arn := "arn:aws:kinesis:us-east-1:0:stream/s" }) =
        (pySplitColon3 e.arn).getD 2 "") ∧
    (∃ e, l9.get? 1 = some e ∧
      parseEventSource e = .ok (.s3 { arn := "arn:aws:s3:::bucket" }) ∧
      EventSource.svcKey (.s3 { arn := "arn:aws:s3:::bucket" }) =
        (pySplitColon3 e.arn).getD 2 "") := by
  have h1 := (c9_event_source_dispatch "n" c9bad [{ arn := "arn:aws:foo:bar" }] rfl).1
    ⟨{ arn := "arn:aws:foo:bar" }, by simp, by decide, by decide⟩
  have h2 := (c9_event_source_dispatch "n" c9good l9 rfl).2 ctx9 rfl
  exact ⟨h1, h2.1, h2.2 0 _ rfl, h2.2 1 _ rfl⟩

/-- All steps satisfying p occur strictly before all steps satisfying q:
from the first q-step on, no step satisfies p. -/
def stepsBefore (p q : Step → Bool) : List Step → Bool
  | [] => true
  | s :: rest =>
    if q s then !(p s) && rest.all (fun t => !(p t))
    else stepsBefore p q rest

theorem stepsBefore_of_no_p (p q : Step → Bool) (l : List Step)
    (h : l.all (fun t => !(p t)) = true) : stepsBefore p q l = true := by
  induction l with
  | nil => rfl
  | cons a rest ih =>
    simp only [List.all_cons, Bool.and_eq_true] at h
    obtain ⟨ha, hrest⟩ := h
    simp only [stepsBefore]
    cases hq : q a with
    | true => simp [ha, hrest]
    | false => simpa [hq] using ih hrest

theorem stepsBefore_append (p q : Step → Bool) (t1 t2 : List Step)
    (h1 : t1.all (fun s => !(q s)) = true) (h2 : stepsBefore p q t2 = true) :
    stepsBefore p q (t1 ++ t2) = true := by
  induction t1 with
  | nil => simpa using h2
  | cons a t1 ih =>
    simp only [List.all_cons, Bool.and_eq_true] at h1
    obtain ⟨ha, ht⟩ := h1
    have hq : q a = false := by revert ha; cases q a <;> simp
    simp only [List.cons_append, stepsBefore, hq]
    simpa using ih ht

theorem all_mono (l : List Step) (f g : Step → Bool)
    (h : l.all f = true) (himp : ∀ s, f s = true → g s = true) :
    l.all g = true := by
  simp only [List.all_eq_true] at h ⊢
  intro x hx
  exact himp x (h x hx)

theorem all_map_range {α : Type} (n : Nat) (f : Nat → α) (g : α → Bool)
    (h : ∀ i, g (f i) = true) : ((List.range n).map f).all g = true := by
  simp only [List.all_eq_true]
  intro x hx
  obtain ⟨i, _, rfl⟩ := List.mem_map.mp hx
  exact h i

theorem countP_zero_of_all_not (l : List Step) (f : Step → Bool)
    (h : l.all (fun s => !(f s)) = true) : l.countP f = 0 := by
  rw [List.countP_eq_zero]
  simp only [List.all_eq_true] at h
  intro a ha
  have h2 := h a ha
  simp only [Bool.not_eq_eq_eq_not, Bool.not_true] at h2
  simp [h2]

theorem detachLoop_all_detach (fails : Nat → Bool) (arns : List (Option String)) :
    ∀ i, ((detachLoop fails arns i).1.all (fun s => s.isDetachPolicy)) = true := by
  induction arns with
  | nil => intro i; rfl
  | cons a rest ih =>
    intro i
    cases a with
    | none => simpa [detachLoop] using ih (i + 1)
    | some v =>
      simp only [detachLoop]
      cases hf : fails i with
      | true => rw [if_pos rfl]; rfl
      | false =>
        rw [if_neg (by simp)]
        simp only [List.all_cons, Bool.and_eq_true]
        exact ⟨rfl, ih (i + 1)⟩

theorem roleDelete_ok (ctx : Context) (w : World) (ps : List PolicyConfig)
    (hps : ctx.policies = some ps) :
    (roleDelete ctx w).2 = .ok () ∧
    ((roleDelete ctx w).1.all (fun s => s.isDetachPolicy || s.isDeleteRole)) = true := by
  have hd := detachLoop_all_detach w.detachFails ((List.range ps.length).map w.policyArn)
  have hmono : ∀ l : List Step, (l.all fun s => s.isDetachPolicy) = true →
      (l.all fun s => s.isDetachPolicy || s.isDeleteRole) = true :=
    fun l hl => all_mono l (fun s => s.isDetachPolicy)
      (fun s => s.isDetachPolicy || s.isDeleteRole) hl (by intro s hs; simp [hs])
  simp only [roleDelete, hps]
  cases h2 : (detachLoop w.detachFails ((List.range ps.length).map w.policyArn) 0).2 with
  | true =>
    rw [if_pos rfl]
    refine ⟨rfl, ?_⟩
    simp only [List.all_append, Bool.and_eq_true]
    exact ⟨hmono _ (hd 0), by decide⟩
  | false =>
    rw [if_neg (by simp)]
    exact ⟨rfl, hmono _ (hd 0)⟩

theorem deletePost_countP (ctx : Context) :
    (deletePost ctx).countP (fun s => Step.isPolicyDelete s) =
      (if policiesTruthy ctx.policies then (ctx.policies.getD []).length else 0) := by
  unfold deletePost
  cases h : policiesTruthy ctx.policies with
  | true =>
    simp only [h, if_true]
    have hall : ∀ a ∈ (List.range ((ctx.policies.getD []).length)).map Step.policyDelete,
        (fun s => Step.isPolicyDelete s) a = true := by
      have := all_map_range ((ctx.policies.getD []).length) Step.policyDelete
        (fun s => Step.isPolicyDelete s) (fun i => rfl)
      simpa only [List.all_eq_true] using this
    rw [List.countP_eq_length.mpr hall]
    simp
  | false => simp [h]

theorem deleteEventSourceSteps_no_q (ctx : Context) (g : Step → Bool)
    (h : ∀ i, g (Step.eventSourceRemove i) = true) :
    (deleteEventSourceSteps ctx).all g = true :=
  all_map_range _ _ _ h

theorem deletePost_no_q (ctx : Context) (g : Step → Bool)
    (h : ∀ i, g (Step.policyDelete i) = true) :
    (deletePost ctx).all g = true := by
  unfold deletePost
  cases hp : policiesTruthy ctx.policies with
  | true => simpa [hp] using all_map_range _ _ _ h
  | false => simp [hp]

/-- A configuration with a managed role and no policies. -/
def c3cfg : Config :=
  { iam := some { role := some (.bool true) }, lambdaSection := { handler := "h" } }

/-- The orchestrator built from c3cfg. -/
def ctx3 : Context :=
  { name := "n", config := c3cfg, policies := none, roleSlot := .role {},
    function := c3cfg.lambdaSection, event_sources := [] }

/-- Claim C3 counterexample: deleting an orchestrator with a managed role
and no configured policies raises an uncaught TypeError out of delete()
(Role.delete iterates the None policies attribute and catches only
ClientError, role.py 140-156), so not every individual step failure is
caught and logged. -/
theorem c3_delete_propagates_typeerror :
    mkContext "n" c3cfg = .ok ctx3 ∧
    contextDelete ctx3 w0 =
      ([Step.logDelete, Step.deleteFunction, Step.sleep 5], .error .typeError) := by
  exact ⟨rfl, rfl⟩

/-- Claim C3 (amended): delete() removes all event-source bindings strictly
before the function deletion attempt, and deletes the role strictly before
deleting the policies; the remote (ClientError) failure of any individual
step is caught and logged rather than propagated and the remaining steps —
in particular every policy deletion — still execute, provided the role
attribute was assigned and, when a role is managed, a policies list is
configured; with a managed role and no configured policies, delete()
propagates an uncaught TypeError (the counterexample). -/
theorem c3_delete_order (ctx : Context) (w : World)
    (hr : ctx.roleSlot ≠ .unassigned)
    (hp : ∀ rc, ctx.roleSlot = .role rc → ctx.policies ≠ none) :
    (contextDelete ctx w).2 = .ok () ∧
    stepsBefore Step.isEventSourceRemove Step.isDeleteFunction (contextDelete ctx w).1 = true ∧
    stepsBefore Step.isDeleteRole Step.isPolicyDelete (contextDelete ctx w).1 = true ∧
    (contextDelete ctx w).1.countP (fun s => Step.isPolicyDelete s) =
      (if policiesTruthy ctx.policies then (ctx.policies.getD []).length else 0) := by
  cases hrs : ctx.roleSlot with
  | unassigned => exact absurd hrs hr
  | noRole =>
    have htrace : (contextDelete ctx w).1 =
        deletePre ctx ++ [Step.sleep 5] ++ deletePost ctx := by
      simp [contextDelete, hrs]
    have hres : (contextDelete ctx w).2 = .ok () := by
      simp [contextDelete, hrs]
    refine ⟨hres, ?_, ?_, ?_⟩
    · rw [htrace]
      simp only [deletePre, List.append_assoc]
      refine stepsBefore_append _ _ _ _
        (deleteEventSourceSteps_no_q ctx (fun s => !(Step.isDeleteFunction s)) (fun i => rfl))
        (stepsBefore_of_no_p _ _ _ ?_)
      simp only [List.all_append, Bool.and_eq_true]
      exact ⟨by decide, by decide,
        deletePost_no_q ctx (fun s => !(Step.isEventSourceRemove s)) (fun i => rfl)⟩
    · rw [htrace]
      simp only [deletePre, List.append_assoc]
      refine stepsBefore_append _ _ _ _
        (deleteEventSourceSteps_no_q ctx (fun s => !(Step.isPolicyDelete s)) (fun i => rfl)) ?_
      refine stepsBefore_append _ _ _ _ (by decide) ?_
      refine stepsBefore_append _ _ _ _ (by decide) ?_
      exact stepsBefore_of_no_p _ _ _
        (deletePost_no_q ctx (fun s => !(Step.isDeleteRole s)) (fun i => rfl))
    · rw [htrace]
      simp only [deletePre, List.append_assoc, List.countP_append]
      rw [countP_zero_of_all_not _ _
        (deleteEventSourceSteps_no_q ctx (fun s => !(Step.isPolicyDelete s)) (fun i => rfl))]
      rw [countP_zero_of_all_not [Step.logDelete, Step.deleteFunction, Step.sleep 5] _ (by decide)]
      rw [countP_zero_of_all_not [Step.sleep 5] _ (by decide)]
      simp [deletePost_countP ctx]
  | role rc =>
    obtain ⟨ps, hps⟩ := Option.ne_none_iff_exists.mp (hp rc hrs)
    have hRD := roleDelete_ok ctx w ps hps.symm
    obtain ⟨hrd2, hrd1⟩ := hRD
    cases hrw : roleDelete ctx w with
    | mk tr res =>
      rw [hrw] at hrd2 hrd1
      simp only at hrd2 hrd1
      subst hrd2
      have htr : tr.all (fun s => s.isDetachPolicy || s.isDeleteRole) = true := hrd1
      have htrNoES : tr.all (fun s => !(Step.isEventSourceRemove s)) = true :=
        all_mono tr (fun s => s.isDetachPolicy || s.isDeleteRole)
          (fun s => !(Step.isEventSourceRemove s)) htr
          (by intro s hs; cases s <;> simp_all [Step.isDetachPolicy, Step.isDeleteRole,
            Step.isEventSourceRemove])
      have htrNoPD : tr.all (fun s => !(Step.isPolicyDelete s)) = true :=
        all_mono tr (fun s => s.isDetachPolicy || s.isDeleteRole)
          (fun s => !(Step.isPolicyDelete s)) htr
          (by intro s hs; cases s <;> simp_all [Step.isDetachPolicy, Step.isDeleteRole,
            Step.isPolicyDelete])
      have htrace : (contextDelete ctx w).1 =
          deletePre ctx ++ tr ++ [Step.sleep 5] ++ deletePost ctx := by
        simp [contextDelete, hrs, hrw]
      have hres : (contextDelete ctx w).2 = .ok () := by
        simp [contextDelete, hrs, hrw]
      refine ⟨hres, ?_, ?_, ?_⟩
      · rw [htrace]
        simp only [deletePre, List.append_assoc]
        refine stepsBefore_append _ _ _ _
          (deleteEventSourceSteps_no_q ctx (fun s => !(Step.isDeleteFunction s)) (fun i => rfl))
          (stepsBefore_of_no_p _ _ _ ?_)
        simp only [List.all_append, Bool.and_eq_true]
        exact ⟨by decide, htrNoES, by decide,
          deletePost_no_q ctx (fun s => !(Step.isEventSourceRemove s)) (fun i => rfl)⟩
      · rw [htrace]
        simp only [deletePre, List.append_assoc]
        refine stepsBefore_append _ _ _ _
          (deleteEventSourceSteps_no_q ctx (fun s => !(Step.isPolicyDelete s)) (fun i => rfl)) ?_
        refine stepsBefore_append _ _ _ _ (by decide) ?_
        refine stepsBefore_append _ _ _ _ htrNoPD ?_
        refine stepsBefore_append _ _ _ _ (by decide) ?_
        exact stepsBefore_of_no_p _ _ _
          (deletePost_no_q ctx (fun s => !(Step.isDeleteRole s)) (fun i => rfl))
      · rw [htrace]
        simp only [deletePre, List.append_assoc, List.countP_append]
        rw [countP_zero_of_all_not _ _
          (deleteEventSourceSteps_no_q ctx (fun s => !(Step.isPolicyDelete s)) (fun i => rfl))]
        rw [countP_zero_of_all_not [Step.logDelete, Step.deleteFunction, Step.sleep 5] _
          (by decide)]
        rw [countP_zero_of_all_not tr _ htrNoPD]
        rw [countP_zero_of_all_not [Step.sleep 5] _ (by decide)]
        simp [deletePost_countP ctx]

/-- An orchestrator with a managed role, one policy and one event source
(for the witness of claim C3). -/
def ctx3w : Context :=
  { name := "n", config := {}, policies := some [{}], roleSlot := .role {},
    function := {}, event_sources := [.kinesis { arn := "a" }] }

/-- Witness for claim C3: the amended ordering statement at a concrete
orchestrator owning an event source, a role and one policy. -/
theorem c3_delete_order_witness :
    (contextDelete ctx3w w0).2 = .ok () ∧
    stepsBefore Step.isEventSourceRemove Step.isDeleteFunction (contextDelete ctx3w w0).1 = true ∧
    stepsBefore Step.isDeleteRole Step.isPolicyDelete (contextDelete ctx3w w0).1 = true ∧
    (contextDelete ctx3w w0).1.countP (fun s => Step.isPolicyDelete s) =
      (if policiesTruthy ctx3w.policies then (ctx3w.policies.getD []).length else 0) :=
  c3_delete_order ctx3w w0 (by decide) (by intro rc h hcon; exact absurd hcon (by decide))

end Kappa
